import Mathlib

/-!
Verification of the conversational intake engine of the EHS repository:
a shallow embedding of `services/embeddings.py` and `routes/chatbot.py`,
together with the Five-Whys and CAPA managers that those routes call
(their module `services.ehs_chatbot` is referenced but not part of the
repository files, so they are modelled from the specification).

Python strings are embedded as Lean strings; the handful of Python string
operations used by the code (`lower`, `strip`, `in`, `startswith`, slicing)
are defined below over the character list so that every definition is
executable by the kernel.  Numpy float vectors are embedded as lists of
rationals: the only numeric facts the code relies on are exact (zero
vectors, dot products of zeros), so no rounding is lost.  A raised Python
exception is an `Except.error`; `try/except` blocks become matches on it.
-/

namespace EHS

/-! ## Python string primitives -/

/-- Python `s.lower()` over the character list. -/
def pyLower (s : String) : String := ⟨s.toList.map Char.toLower⟩

/-- Python `s.strip()`: whitespace removed from both ends. -/
def pyStrip (s : String) : String :=
  ⟨((s.toList.dropWhile Char.isWhitespace).reverse.dropWhile Char.isWhitespace).reverse⟩

/-- Python `s.startswith(pat)`. -/
def pyStartsWith (s pat : String) : Bool := pat.toList.isPrefixOf s.toList

/-- Python slicing `s[:n]`. -/
def pyTake (s : String) (n : Nat) : String := ⟨s.toList.take n⟩

/-- Helper for `pyContains`: substring search over character lists. -/
def listContainsSub : List Char → List Char → Bool
  | [], pat => pat.isEmpty
  | c :: t, pat => pat.isPrefixOf (c :: t) || listContainsSub t pat

/-- Python `pat in s` for strings: substring containment. -/
def pyContains (s pat : String) : Bool := listContainsSub s.toList pat.toList

/-- Python `x or d` for an optional string form field: `None` and the empty
string are falsy and give the default. -/
def formOr (v : Option String) (d : String) : String :=
  match v with
  | none => d
  | some s => if s = "" then d else s

/-! ## Association lists standing for Python dicts -/

/-- Python `m.get(k)` on a dict embedded as an association list. -/
def lookupKey {α : Type} : List (String × α) → String → Option α
  | [], _ => none
  | p :: t, k => if p.1 = k then some p.2 else lookupKey t k

/-- Python `k in m` on a dict embedded as an association list. -/
def hasKey {α : Type} : List (String × α) → String → Bool
  | [], _ => false
  | p :: t, k => p.1 = k || hasKey t k

/-- Helper for `setKey`: overwrite the binding of a present key. -/
def replaceKey {α : Type} : List (String × α) → String → α → List (String × α)
  | [], _, _ => []
  | p :: t, k, v => (if p.1 = k then (k, v) else p) :: replaceKey t k v

/-- Python `m[k] = v`: replace the binding when the key is present, append
it otherwise. -/
def setKey {α : Type} (m : List (String × α)) (k : String) (v : α) :
    List (String × α) :=
  if hasKey m k then replaceKey m k v else m ++ [(k, v)]

theorem lookupKey_replaceKey_self {α : Type} (m : List (String × α))
    (k : String) (v : α) (h : hasKey m k = true) :
    lookupKey (replaceKey m k v) k = some v := by
  induction m with
  | nil => simp [hasKey] at h
  | cons p t ih =>
    by_cases hp : p.1 = k
    · simp [replaceKey, lookupKey, hp]
    · simp only [hasKey, Bool.or_eq_true, decide_eq_true_eq] at h
      rcases h with h | h
      · exact absurd h hp
      · simpa [replaceKey, lookupKey, hp] using ih h

theorem lookupKey_none_of_not_hasKey {α : Type} (m : List (String × α))
    (k : String) (h : hasKey m k = false) : lookupKey m k = none := by
  induction m with
  | nil => rfl
  | cons p t ih =>
    simp only [hasKey, Bool.or_eq_false_iff, decide_eq_false_iff_not] at h
    simp [lookupKey, h.1, ih h.2]

theorem lookupKey_setKey_self {α : Type} (m : List (String × α)) (k : String)
    (v : α) : lookupKey (setKey m k v) k = some v := by
  unfold setKey
  by_cases h : hasKey m k
  · rw [if_pos h]
    exact lookupKey_replaceKey_self m k v h
  · rw [if_neg h]
    have hn := lookupKey_none_of_not_hasKey m k (by simpa using h)
    induction m with
    | nil => simp [lookupKey]
    | cons p t ih =>
      simp only [hasKey, Bool.or_eq_true, decide_eq_true_eq, not_or] at h
      simp only [lookupKey, if_neg h.1] at hn ⊢
      exact ih (by simpa using h.2) hn

theorem lookupKey_replaceKey_other {α : Type} (m : List (String × α))
    (k j : String) (v : α) (hjk : j ≠ k) :
    lookupKey (replaceKey m k v) j = lookupKey m j := by
  induction m with
  | nil => rfl
  | cons p t ih =>
    by_cases hp : p.1 = k
    · have h1 : ¬ (k = j) := fun hc => hjk hc.symm
      have h2 : ¬ (p.1 = j) := by rw [hp]; exact h1
      simp [replaceKey, lookupKey, hp, h1, h2, ih]
    · by_cases hpj : p.1 = j
      · simp only [replaceKey, if_neg hp, lookupKey, if_pos hpj]
      · simp only [replaceKey, if_neg hp, lookupKey, if_neg hpj]
        exact ih

theorem lookupKey_append {α : Type} (m l : List (String × α)) (k : String) :
    lookupKey (m ++ l) k = ((lookupKey m k).rec (lookupKey l k) fun v => some v) := by
  induction m with
  | nil => simp [lookupKey]
  | cons p t ih =>
    by_cases hp : p.1 = k
    · simp [lookupKey, hp]
    · simp [lookupKey, hp, ih]

theorem lookupKey_setKey_other {α : Type} (m : List (String × α)) (k j : String)
    (v : α) (hjk : j ≠ k) : lookupKey (setKey m k v) j = lookupKey m j := by
  unfold setKey
  by_cases h : hasKey m k
  · rw [if_pos h]
    exact lookupKey_replaceKey_other m k j v hjk
  · rw [if_neg h]
    rw [lookupKey_append]
    cases hm : lookupKey m j with
    | some v2 => rfl
    | none =>
      have h1 : ¬ (k = j) := fun hc => hjk hc.symm
      simp [lookupKey, h1]

theorem replaceKey_keys {α : Type} (m : List (String × α)) (k : String)
    (v : α) : (replaceKey m k v).map Prod.fst = m.map Prod.fst := by
  induction m with
  | nil => rfl
  | cons p t ih =>
    by_cases hp : p.1 = k
    · simp [replaceKey, hp, ih]
    · simp [replaceKey, hp, ih]

theorem hasKey_of_lookupKey {α : Type} (m : List (String × α)) (k : String)
    (v : α) (h : lookupKey m k = some v) : hasKey m k = true := by
  induction m with
  | nil => simp [lookupKey] at h
  | cons p t ih =>
    by_cases hp : p.1 = k
    · simp [hasKey, hp]
    · simp only [lookupKey, if_neg hp] at h
      simp [hasKey, hp, ih h]

theorem setKey_keys_of_lookupKey {α : Type} (m : List (String × α))
    (k : String) (v w : α) (h : lookupKey m k = some w) :
    (setKey m k v).map Prod.fst = m.map Prod.fst := by
  unfold setKey
  rw [if_pos (hasKey_of_lookupKey m k w h)]
  exact replaceKey_keys m k v

/-! ## services/embeddings.py -/

/-- Constant `get_embedding_dim()`: dimension of all-MiniLM-L6-v2 vectors. -/
def embeddingDim : Nat := 384

/-- Numpy `np.zeros(n)` as a list of rationals. -/
def zeroVec (n : Nat) : List ℚ := List.replicate n 0

/-- The embedding backend as one fallible operation: `get_model()` followed
by `model.encode(texts, normalize_embeddings=True)`.  An `Except.error`
stands for any exception raised while loading the model or encoding. -/
structure Backend where
  encode : List String → Except String (List (List ℚ))

/-- Function `embed_texts(texts)`: an empty zero matrix for an empty input,
zero vectors when SBERT is unavailable, otherwise the backend output,
degrading to zero vectors when the backend raises. -/
def embed_texts (sbertAvailable : Bool) (bk : Backend) (texts : List String) :
    List (List ℚ) :=
  if texts.isEmpty then []
  else if !sbertAvailable then texts.map fun _ => zeroVec embeddingDim
  else
    match bk.encode texts with
    | .ok rows => rows
    | .error _ => texts.map fun _ => zeroVec embeddingDim

/-- Function `embed_query(q)`: the zero vector when SBERT is unavailable or
the backend raises (including the indexing of an empty encode result),
otherwise the first row of `encode([q])`. -/
def embed_query (sbertAvailable : Bool) (bk : Backend) (q : String) :
    List ℚ :=
  if !sbertAvailable then zeroVec embeddingDim
  else
    match bk.encode [q] with
    | .ok rows =>
      match rows.head? with
      | some v => v
      | none => zeroVec embeddingDim
    | .error _ => zeroVec embeddingDim

/-- Dot product of two embedded vectors, as `np.dot` on equal-length inputs. -/
def dotProd : List ℚ → List ℚ → ℚ
  | a :: as, b :: bs => a * b + dotProd as bs
  | _, _ => 0

/-- Function `cosine_sim(a, b)`: a plain dot product; numpy raises on
mismatched shapes and the handler then returns 0.0. -/
def cosine_sim (a b : List ℚ) : ℚ :=
  if a.length = b.length then dotProd a b else 0

theorem dotProd_zeroVec (n : Nat) : dotProd (zeroVec n) (zeroVec n) = 0 := by
  induction n with
  | zero => rfl
  | succ k ih => simpa [zeroVec, List.replicate_succ, dotProd] using ih

theorem zeroVec_length (n : Nat) : (zeroVec n).length = n := by
  rw [zeroVec, List.length_replicate]

/-- C1.  When the embedding backend is unavailable, `embed_query` returns
the all-zero vector of dimension 384, `embed_texts` returns one all-zero
vector of dimension 384 per input text, and `cosine_sim` of two such zero
vectors is 0. -/
theorem c1_unavailable_zero_vectors (bk : Backend) (t : String)
    (ts : List String) :
    embed_query false bk t = zeroVec 384 ∧
    embed_texts false bk ts = ts.map (fun _ => zeroVec 384) ∧
    (zeroVec 384).length = 384 ∧
    cosine_sim (zeroVec 384) (zeroVec 384) = 0 := by
  refine ⟨rfl, ?_, zeroVec_length 384, ?_⟩
  · cases ts with
    | nil => rfl
    | cons h t => rfl
  · unfold cosine_sim
    rw [if_pos rfl]
    exact dotProd_zeroVec 384

/-- C7.  When the embedding backend raises (model load or inference),
`embed_texts` and `embed_query` catch the exception and return all-zero
output of the right shape instead of propagating it. -/
theorem c7_backend_failure_degrades (bk : Backend) (ts : List String)
    (q : String) (e1 e2 : String)
    (hts : bk.encode ts = .error e1) (hq : bk.encode [q] = .error e2) :
    embed_texts true bk ts = ts.map (fun _ => zeroVec 384) ∧
    embed_query true bk q = zeroVec 384 := by
  constructor
  · cases ts with
    | nil => rfl
    | cons h t =>
      show embed_texts true bk (h :: t) = (h :: t).map (fun _ => zeroVec embeddingDim)
      simp only [embed_texts, List.isEmpty_cons, Bool.not_true, if_false,
        Bool.false_eq_true, hts]
  · show embed_query true bk q = zeroVec embeddingDim
    simp only [embed_query, Bool.not_true, Bool.false_eq_true, if_false, hq]

/-- A backend whose every call raises. -/
def raisingBackend : Backend := ⟨fun _ => .error "model load failed"⟩

/-- Witness for C7 at a concrete failing backend and inputs. -/
theorem c7_witness :
    embed_texts true raisingBackend ["a"] = ["a"].map (fun _ => zeroVec 384) ∧
    embed_query true raisingBackend "a" = zeroVec 384 :=
  c7_backend_failure_degrades raisingBackend ["a"] "a"
    "model load failed" "model load failed" rfl rfl

/-! ## Initialization caching (claim C6)

The call structure of `get_model` (under `@lru_cache(maxsize=1)`) and of
`get_chatbot` is made explicit: the state carries the cache slot and a
count of constructor invocations, and an oracle gives the outcome of the
n-th constructor call.  `lru_cache` stores a result only when the call
returns; a call that raises stores nothing. -/

/-- Cache state of `get_model`: the `lru_cache` slot and how many times
`SentenceTransformer(...)` has been invoked. -/
structure ModelState where
  cache : Option String
  ctorCalls : Nat
deriving DecidableEq

/-- Function `get_model()` with its cache explicit: a cached model is
returned without running the constructor; with no cached value it raises
when SBERT is unavailable, else runs the constructor, caching only a
successful result. -/
def get_model (sbertAvailable : Bool) (ctor : Nat → Except String String)
    (s : ModelState) : Except String String × ModelState :=
  match s.cache with
  | some m => (.ok m, s)
  | none =>
    if !sbertAvailable then (.error "SBERT not available", s)
    else
      match ctor s.ctorCalls with
      | .ok m => (.ok m, ⟨some m, s.ctorCalls + 1⟩)
      | .error e => (.error e, ⟨none, s.ctorCalls + 1⟩)

/-- Function `embed_query` with the `get_model` cache state threaded
through; `encode` is the inference oracle, a raise degrades to the zero
vector. -/
def embed_query_stateful (sbertAvailable : Bool)
    (ctor : Nat → Except String String)
    (encode : String → String → Except String (List ℚ)) (q : String)
    (s : ModelState) : List ℚ × ModelState :=
  if !sbertAvailable then (zeroVec embeddingDim, s)
  else
    match get_model sbertAvailable ctor s with
    | (.ok m, s1) =>
      match encode m q with
      | .ok v => (v, s1)
      | .error _ => (zeroVec embeddingDim, s1)
    | (.error _, s1) => (zeroVec embeddingDim, s1)

/-- Module state of `routes/chatbot.py`: the globals `_chatbot_instance`
and `_chatbot_creation_attempted`, plus counts of how many times the
factory `create_chatbot` and the direct `SmartEHSChatbot()` path ran. -/
structure BotState where
  inst : Option String
  creationAttempted : Bool
  factoryCalls : Nat
  directCalls : Nat
deriving DecidableEq

/-- Function `get_chatbot()`: whenever the cached instance is `None` it
re-attempts creation, first through the factory and then through the
direct class; `_chatbot_creation_attempted` is set only on success. -/
def get_chatbot (factory : Nat → Except String String)
    (direct : Nat → Except String String) (s : BotState) :
    Option String × BotState :=
  match s.inst with
  | some b => (some b, s)
  | none =>
    match factory s.factoryCalls with
    | .ok b =>
      (some b, { inst := some b, creationAttempted := true,
                 factoryCalls := s.factoryCalls + 1,
                 directCalls := s.directCalls })
    | .error _ =>
      match direct s.directCalls with
      | .ok b =>
        (some b, { inst := some b, creationAttempted := true,
                   factoryCalls := s.factoryCalls + 1,
                   directCalls := s.directCalls + 1 })
      | .error _ =>
        (none, { inst := none, creationAttempted := s.creationAttempted,
                 factoryCalls := s.factoryCalls + 1,
                 directCalls := s.directCalls + 1 })

/-- A constructor whose every invocation raises. -/
def alwaysFailingCtor : Nat → Except String String := fun _ => .error "boom"

/-- An inference oracle whose every invocation raises. -/
def alwaysFailingEncode : String → String → Except String (List ℚ) :=
  fun _ _ => .error "boom"

/-- C6 counterexample.  After a failed model load the next `embed_query`
call invokes the model constructor again (two calls, two constructor
invocations), and after a failed chatbot creation the next `get_chatbot`
call re-attempts creation: neither failure is cached. -/
theorem c6_counterexample :
    ((embed_query_stateful true alwaysFailingCtor alwaysFailingEncode "hi"
        (embed_query_stateful true alwaysFailingCtor alwaysFailingEncode "hi"
          ⟨none, 0⟩).2).2.ctorCalls = 2) ∧
    ((get_chatbot alwaysFailingCtor alwaysFailingCtor
        (get_chatbot alwaysFailingCtor alwaysFailingCtor
          ⟨none, false, 0, 0⟩).2).2.factoryCalls = 2) :=
  ⟨rfl, rfl⟩

/-- C6 amended.  Only unavailability fixed at import time is cached: with
the SBERT flag false no call ever runs the constructor, and a cached
model or chatbot instance stops further constructor calls; but while no
instance is cached, every `embed_query` call (flag true) and every
`get_chatbot` call runs the constructor again, whether or not a previous
attempt failed. -/
theorem c6_amended_failure_not_cached
    (ctor : Nat → Except String String)
    (encode : String → String → Except String (List ℚ))
    (factory direct : Nat → Except String String)
    (q : String) (s : ModelState) (b : BotState) :
    ((embed_query_stateful false ctor encode q s).2 = s) ∧
    (s.cache = none →
      (embed_query_stateful true ctor encode q s).2.ctorCalls =
        s.ctorCalls + 1) ∧
    (∀ m, s.cache = some m →
      (embed_query_stateful true ctor encode q s).2.ctorCalls = s.ctorCalls) ∧
    (b.inst = none →
      (get_chatbot factory direct b).2.factoryCalls = b.factoryCalls + 1) ∧
    (∀ x, b.inst = some x → (get_chatbot factory direct b).2 = b) := by
  refine ⟨rfl, ?_, ?_, ?_, ?_⟩
  · intro h
    cases hc : ctor s.ctorCalls with
    | ok m =>
      cases he : encode m q with
      | ok v =>
        simp only [embed_query_stateful, get_model, h, hc, he, Bool.not_true,
          Bool.false_eq_true, if_false]
      | error e =>
        simp only [embed_query_stateful, get_model, h, hc, he, Bool.not_true,
          Bool.false_eq_true, if_false]
    | error e =>
      simp only [embed_query_stateful, get_model, h, hc, Bool.not_true,
        Bool.false_eq_true, if_false]
  · intro m h
    cases he : encode m q with
    | ok v =>
      simp only [embed_query_stateful, get_model, h, he, Bool.not_true,
        Bool.false_eq_true, if_false]
    | error e =>
      simp only [embed_query_stateful, get_model, h, he, Bool.not_true,
        Bool.false_eq_true, if_false]
  · intro h
    cases hf : factory b.factoryCalls with
    | ok x => simp only [get_chatbot, h, hf]
    | error e =>
      cases hd : direct b.directCalls with
      | ok x => simp only [get_chatbot, h, hf, hd]
      | error e2 => simp only [get_chatbot, h, hf, hd]
  · intro x h
    simp only [get_chatbot, h]

/-- Witness for the amended C6 at concrete states and oracles. -/
theorem c6_amended_witness :
    ((embed_query_stateful false alwaysFailingCtor alwaysFailingEncode "q"
        ⟨none, 0⟩).2 = ⟨none, 0⟩) ∧
    ((⟨none, 0⟩ : ModelState).cache = none →
      (embed_query_stateful true alwaysFailingCtor alwaysFailingEncode "q"
        ⟨none, 0⟩).2.ctorCalls = (⟨none, 0⟩ : ModelState).ctorCalls + 1) ∧
    (∀ m, (⟨none, 0⟩ : ModelState).cache = some m →
      (embed_query_stateful true alwaysFailingCtor alwaysFailingEncode "q"
        ⟨none, 0⟩).2.ctorCalls = (⟨none, 0⟩ : ModelState).ctorCalls) ∧
    ((⟨none, false, 0, 0⟩ : BotState).inst = none →
      (get_chatbot alwaysFailingCtor alwaysFailingCtor
        ⟨none, false, 0, 0⟩).2.factoryCalls =
        (⟨none, false, 0, 0⟩ : BotState).factoryCalls + 1) ∧
    (∀ x, (⟨none, false, 0, 0⟩ : BotState).inst = some x →
      (get_chatbot alwaysFailingCtor alwaysFailingCtor
        ⟨none, false, 0, 0⟩).2 = ⟨none, false, 0, 0⟩) :=
  c6_amended_failure_not_cached alwaysFailingCtor alwaysFailingEncode
    alwaysFailingCtor alwaysFailingCtor "q" ⟨none, 0⟩ ⟨none, false, 0, 0⟩

/-! ## routes/chatbot.py: keyword fallback responder (claim C2) -/

/-- Python generator test of `get_enhanced_fallback_response`:
`any(word in message_lower for word in words)`. -/
def anyKeywordIn (messageLower : String) (words : List String) : Bool :=
  words.any fun w => pyContains messageLower w

/-- Keywords of the incident branch (line 323 of routes/chatbot.py). -/
def incidentKeywords : List String :=
  ["incident", "accident", "injury", "hurt", "damage", "spill", "report"]

/-- Keywords of the safety branch (line 344). -/
def safetyKeywords : List String :=
  ["safety", "concern", "unsafe", "hazard", "dangerous"]

/-- Keywords of the SDS branch (line 361). -/
def sdsKeywords : List String :=
  ["sds", "chemical", "safety data sheet", "msds", "find"]

/-- Keywords of the emergency branch (line 384). -/
def emergencyKeywords : List String :=
  ["emergency", "911", "fire", "urgent", "help"]

/-- Upload descriptor built by `handle_file_upload_secure` (the Python dict
`file_info`); field `ftype` embeds the dict key `type`. -/
structure FileInfo where
  filename : String
  unique_filename : String
  path : String
  ftype : String
  size : Nat
  upload_timestamp : String
deriving DecidableEq

/-- Keyword cascade of `get_enhanced_fallback_response`, returning the
`type` field of the chosen response: the branches are tried in source
order, incident before safety before SDS before emergency. -/
def fallbackKeywordType (messageLower : String) : String :=
  if anyKeywordIn messageLower incidentKeywords then "incident_guidance"
  else if anyKeywordIn messageLower safetyKeywords then "safety_guidance"
  else if anyKeywordIn messageLower sdsKeywords then "sds_guidance"
  else if anyKeywordIn messageLower emergencyKeywords then "emergency_guidance"
  else "general_help"

/-- The `type` field of the response of
`get_enhanced_fallback_response(message, uploaded_file)`: an image or PDF
upload is acknowledged first; any other upload falls through to the
keyword cascade over the lowercased message. -/
def get_enhanced_fallback_response_type (message : String)
    (uploaded : Option FileInfo) : String :=
  let messageLower := pyLower message
  match uploaded with
  | some f =>
    if pyStartsWith f.ftype "image/" then "file_upload_guidance"
    else if f.ftype = "application/pdf" then "file_upload_guidance"
    else fallbackKeywordType messageLower
  | none => fallbackKeywordType messageLower

/-- C2 counterexample.  The message "fire damage" contains the emergency
keyword "fire", yet the fallback responder classifies it through the
incident branch, not the emergency branch: the priority order is
incident over emergency, not emergency over incident. -/
theorem c2_counterexample :
    anyKeywordIn (pyLower "fire damage") emergencyKeywords = true ∧
    get_enhanced_fallback_response_type "fire damage" none =
      "incident_guidance" ∧
    get_enhanced_fallback_response_type "fire damage" none ≠
      "emergency_guidance" := by
  refine ⟨by decide, by decide, by decide⟩

/-- C2 amended.  In the visible fallback responder the branch priority is
incident over safety-concern over sds-lookup over emergency over general,
for every text (a pure function of the text, deterministic, with no
embedding backend involved): the emergency response is returned exactly
when an emergency keyword occurs and no keyword of a higher-priority
branch does; an incident keyword always wins; a safety keyword wins over
SDS and emergency keywords when no incident keyword occurs; an SDS
keyword wins over emergency keywords when neither an incident nor a
safety keyword occurs; and the general help response comes exactly when
no keyword of any branch occurs. -/
theorem c2_amended_branch_priority (message : String) :
    (get_enhanced_fallback_response_type message none = "emergency_guidance" ↔
      (anyKeywordIn (pyLower message) emergencyKeywords = true ∧
       anyKeywordIn (pyLower message) incidentKeywords = false ∧
       anyKeywordIn (pyLower message) safetyKeywords = false ∧
       anyKeywordIn (pyLower message) sdsKeywords = false)) ∧
    (anyKeywordIn (pyLower message) incidentKeywords = true →
      get_enhanced_fallback_response_type message none =
        "incident_guidance") ∧
    (anyKeywordIn (pyLower message) incidentKeywords = false →
      anyKeywordIn (pyLower message) safetyKeywords = true →
      get_enhanced_fallback_response_type message none =
        "safety_guidance") ∧
    (anyKeywordIn (pyLower message) incidentKeywords = false →
      anyKeywordIn (pyLower message) safetyKeywords = false →
      anyKeywordIn (pyLower message) sdsKeywords = true →
      get_enhanced_fallback_response_type message none = "sds_guidance") ∧
    (anyKeywordIn (pyLower message) incidentKeywords = false →
      anyKeywordIn (pyLower message) safetyKeywords = false →
      anyKeywordIn (pyLower message) sdsKeywords = false →
      anyKeywordIn (pyLower message) emergencyKeywords = false →
      get_enhanced_fallback_response_type message none = "general_help") := by
  refine ⟨⟨?_, ?_⟩, ?_, ?_, ?_, ?_⟩
  · intro h
    cases hinc : anyKeywordIn (pyLower message) incidentKeywords with
    | true =>
      simp [get_enhanced_fallback_response_type, fallbackKeywordType,
        hinc] at h
    | false =>
      cases hsaf : anyKeywordIn (pyLower message) safetyKeywords with
      | true =>
        simp [get_enhanced_fallback_response_type, fallbackKeywordType,
          hinc, hsaf] at h
      | false =>
        cases hsds : anyKeywordIn (pyLower message) sdsKeywords with
        | true =>
          simp [get_enhanced_fallback_response_type, fallbackKeywordType,
            hinc, hsaf, hsds] at h
        | false =>
          cases hemer : anyKeywordIn (pyLower message) emergencyKeywords with
          | true => exact ⟨rfl, rfl, rfl, rfl⟩
          | false =>
            simp [get_enhanced_fallback_response_type, fallbackKeywordType,
              hinc, hsaf, hsds, hemer] at h
  · rintro ⟨hemer, hinc, hsaf, hsds⟩
    simp [get_enhanced_fallback_response_type, fallbackKeywordType,
      hemer, hinc, hsaf, hsds]
  · intro hinc
    simp [get_enhanced_fallback_response_type, fallbackKeywordType, hinc]
  · intro hinc hsaf
    simp [get_enhanced_fallback_response_type, fallbackKeywordType,
      hinc, hsaf]
  · intro hinc hsaf hsds
    simp [get_enhanced_fallback_response_type, fallbackKeywordType,
      hinc, hsaf, hsds]
  · intro hinc hsaf hsds hemer
    simp [get_enhanced_fallback_response_type, fallbackKeywordType,
      hinc, hsaf, hsds, hemer]

/-- Witness for the amended C2: concrete inputs exercise every branch of
the priority order, in particular the co-occurrence cases where a
higher-priority keyword beats an emergency keyword — "safety help" and
"find help" both contain the emergency keyword "help", "fire damage"
contains "fire", yet only "call 911" gets the emergency response. -/
theorem c2_amended_witness :
    anyKeywordIn (pyLower "safety help") emergencyKeywords = true ∧
    anyKeywordIn (pyLower "find help") emergencyKeywords = true ∧
    anyKeywordIn (pyLower "fire damage") emergencyKeywords = true ∧
    get_enhanced_fallback_response_type "call 911" none =
      "emergency_guidance" ∧
    get_enhanced_fallback_response_type "safety help" none =
      "safety_guidance" ∧
    get_enhanced_fallback_response_type "find help" none = "sds_guidance" ∧
    get_enhanced_fallback_response_type "fire damage" none =
      "incident_guidance" ∧
    get_enhanced_fallback_response_type "good morning" none =
      "general_help" :=
  ⟨by decide, by decide, by decide,
   ((c2_amended_branch_priority "call 911").1).mpr
     ⟨by decide, by decide, by decide, by decide⟩,
   (c2_amended_branch_priority "safety help").2.2.1 (by decide) (by decide),
   (c2_amended_branch_priority "find help").2.2.2.1
     (by decide) (by decide) (by decide),
   (c2_amended_branch_priority "fire damage").2.1 (by decide),
   (c2_amended_branch_priority "good morning").2.2.2.2
     (by decide) (by decide) (by decide) (by decide)⟩

/-! ## routes/chatbot.py: validate_and_enhance_response (claim C3) -/

/-- One entry of an `actions` list: text, action kind, and the optional
message or url payload. -/
structure ActionItem where
  text : String
  action : String
  message : Option String
  url : Option String
deriving DecidableEq

/-- The `file_context` object added for an uploaded file. -/
structure FileContext where
  filename : String
  size : Nat
  ftype : String
deriving DecidableEq

/-- Response dictionary of the chat route, restricted to the fields
`validate_and_enhance_response` reads or writes; each field is optional
because a Python dict may lack the key (for `message`, the empty string
also stands for any falsy value). -/
structure ChatResponse where
  message : Option String
  rtype : Option String
  actions : Option (List ActionItem)
  quick_replies : Option (List String)
  file_context : Option FileContext
deriving DecidableEq

/-- Default message substituted for a missing or empty `message`. -/
def fallbackDefaultMessage : String :=
  "I processed your request, but could not generate a proper response. Let me help you differently."

/-- Default navigation actions (Main Menu, Dashboard). -/
def defaultNavActions : List ActionItem :=
  [⟨"🏠 Main Menu", "continue_conversation", some "Show me the main menu", none⟩,
   ⟨"📊 Dashboard", "navigate", none, some "/dashboard"⟩]

/-- Quick replies added to a completed incident response. -/
def incidentCompletedQuickReplies : List String :=
  ["Report another incident", "View my reports", "What happens next?", "Main menu"]

/-- First statement of `validate_and_enhance_response`: a missing or falsy
`message` is replaced by the default. -/
def vearMessageStep (r : ChatResponse) : ChatResponse :=
  if (r.message.getD "") = "" then
    { r with message := some fallbackDefaultMessage } else r

/-- Second statement: a missing `type` defaults to `general_response`. -/
def vearTypeStep (r : ChatResponse) : ChatResponse :=
  if r.rtype.isNone then { r with rtype := some "general_response" } else r

/-- Third statement: default navigation actions when `actions` is missing
and the type is not `incident_completed` or `emergency`. -/
def vearActionsStep (r : ChatResponse) : ChatResponse :=
  if r.actions.isNone && !(r.rtype == some "incident_completed")
     && !(r.rtype == some "emergency")
  then { r with actions := some defaultNavActions } else r

/-- Fourth statement: continuity quick replies for a completed incident. -/
def vearQuickStep (r : ChatResponse) : ChatResponse :=
  if r.rtype == some "incident_completed" && r.quick_replies.isNone
  then { r with quick_replies := some incidentCompletedQuickReplies } else r

/-- Fifth statement: attach `file_context` when a file was uploaded. -/
def vearFileStep (uploaded : Option FileInfo) (r : ChatResponse) :
    ChatResponse :=
  match uploaded with
  | some f =>
    if r.file_context.isNone then
      { r with file_context := some ⟨f.filename, f.size, f.ftype⟩ }
    else r
  | none => r

/-- Function `validate_and_enhance_response(response, original_message,
uploaded_file)` on a dict input: its five mutation statements in source
order. -/
def validate_and_enhance_response (r : ChatResponse) (originalMessage : String)
    (uploaded : Option FileInfo) : ChatResponse :=
  vearFileStep uploaded
    (vearQuickStep (vearActionsStep (vearTypeStep (vearMessageStep r))))

theorem vearMessageStep_spec (r : ChatResponse) :
    (vearMessageStep r).message =
      some (if (r.message.getD "") = "" then fallbackDefaultMessage
            else r.message.getD "") ∧
    (vearMessageStep r).rtype = r.rtype ∧
    (vearMessageStep r).actions = r.actions ∧
    (vearMessageStep r).quick_replies = r.quick_replies ∧
    (vearMessageStep r).file_context = r.file_context := by
  by_cases h : (r.message.getD "") = ""
  · simp [vearMessageStep, h]
  · cases hm : r.message with
    | none => rw [hm] at h; simp at h
    | some m =>
      rw [hm] at h
      simp only [Option.getD_some] at h
      simp [vearMessageStep, hm, h]

theorem vearTypeStep_spec (r : ChatResponse) :
    (vearTypeStep r).message = r.message ∧
    (vearTypeStep r).rtype = some (r.rtype.getD "general_response") ∧
    (vearTypeStep r).actions = r.actions ∧
    (vearTypeStep r).quick_replies = r.quick_replies ∧
    (vearTypeStep r).file_context = r.file_context := by
  cases ht : r.rtype with
  | none => simp [vearTypeStep, ht]
  | some t => simp [vearTypeStep, ht]

theorem vearActionsStep_spec (r : ChatResponse) :
    (vearActionsStep r).message = r.message ∧
    (vearActionsStep r).rtype = r.rtype ∧
    ((vearActionsStep r).actions =
      if r.actions = none ∧ r.rtype ≠ some "incident_completed"
         ∧ r.rtype ≠ some "emergency"
      then some defaultNavActions else r.actions) ∧
    (vearActionsStep r).quick_replies = r.quick_replies ∧
    (vearActionsStep r).file_context = r.file_context := by
  by_cases h1 : r.actions = none
  · by_cases h2 : r.rtype = some "incident_completed"
    · simp [vearActionsStep, h1, h2]
    · by_cases h3 : r.rtype = some "emergency"
      · simp [vearActionsStep, h1, h2, h3]
      · simp [vearActionsStep, h1, h2, h3]
  · cases ha : r.actions with
    | none => exact absurd ha h1
    | some a => simp [vearActionsStep, ha]

theorem vearQuickStep_spec (r : ChatResponse) :
    (vearQuickStep r).message = r.message ∧
    (vearQuickStep r).rtype = r.rtype ∧
    (vearQuickStep r).actions = r.actions ∧
    (vearQuickStep r).file_context = r.file_context := by
  by_cases h : r.rtype == some "incident_completed" && r.quick_replies.isNone
  · simp [vearQuickStep, h]
  · simp [vearQuickStep, h]

theorem vearFileStep_spec (uploaded : Option FileInfo) (r : ChatResponse) :
    (vearFileStep uploaded r).message = r.message ∧
    (vearFileStep uploaded r).rtype = r.rtype ∧
    (vearFileStep uploaded r).actions = r.actions ∧
    (vearFileStep uploaded r).quick_replies = r.quick_replies := by
  cases uploaded with
  | none => exact ⟨rfl, rfl, rfl, rfl⟩
  | some f =>
    by_cases h : r.file_context.isNone
    · simp [vearFileStep, h]
    · simp [vearFileStep, h]

/-- C3.  The validator replaces a missing or empty `message` by a
non-empty default, defaults a missing `type` to `general_response`, adds
the default navigation actions (Main Menu, Dashboard) exactly when
`actions` is missing and the resulting type is neither
`incident_completed` nor `emergency`, and otherwise leaves `actions` as
it found them (in particular, no default actions are added for the two
terminal types). -/
theorem c3_response_validation (r : ChatResponse) (om : String)
    (uploaded : Option FileInfo) :
    ((validate_and_enhance_response r om uploaded).message =
      some (if (r.message.getD "") = "" then fallbackDefaultMessage
            else r.message.getD "")) ∧
    fallbackDefaultMessage ≠ "" ∧
    ((validate_and_enhance_response r om uploaded).rtype =
      some (r.rtype.getD "general_response")) ∧
    ((validate_and_enhance_response r om uploaded).actions =
      if r.actions = none ∧ r.rtype.getD "general_response" ≠ "incident_completed"
         ∧ r.rtype.getD "general_response" ≠ "emergency"
      then some defaultNavActions else r.actions) := by
  obtain ⟨hf1, hf2, hf3, hf4⟩ :=
    vearFileStep_spec uploaded
      (vearQuickStep (vearActionsStep (vearTypeStep (vearMessageStep r))))
  obtain ⟨hq1, hq2, hq3, hq5⟩ :=
    vearQuickStep_spec (vearActionsStep (vearTypeStep (vearMessageStep r)))
  obtain ⟨ha1, ha2, ha3, ha4, ha5⟩ :=
    vearActionsStep_spec (vearTypeStep (vearMessageStep r))
  obtain ⟨ht1, ht2, ht3, ht4, ht5⟩ := vearTypeStep_spec (vearMessageStep r)
  obtain ⟨hm1, hm2, hm3, hm4, hm5⟩ := vearMessageStep_spec r
  refine ⟨?_, by decide, ?_, ?_⟩
  · rw [validate_and_enhance_response, hf1, hq1, ha1, ht1, hm1]
  · rw [validate_and_enhance_response, hf2, hq2, ha2, ht2, hm2]
  · rw [validate_and_enhance_response, hf3, hq3, ha3, ht3, hm3, ht2, hm2]
    simp only [ne_eq, Option.some.injEq]

/-! ## Five-Whys manager (claims C4, C5, C8)

The object `five_whys_manager` lives in `services.ehs_chatbot`, which the
routes import but which is not among the repository files; the manager is
modelled from the specification (section 4.4).  The routes themselves are
embedded from `routes/chatbot.py`. -/

/-- Modelled from the spec: the `FiveWhysSession` record of the missing
`services.ehs_chatbot` module — one problem statement, the ordered list
of causal answers, and the step counter. -/
structure FiveWhysSession where
  problem : String
  whys : List String
  step : Nat
deriving DecidableEq

/-- Session map of the Five-Whys manager, keyed by user id. -/
abbrev FiveWhysSessions := List (String × FiveWhysSession)

/-- Modelled from the spec: `five_whys_manager.start(user_id, problem)`
always (re)creates a fresh session for that user, discarding any prior
one. -/
def fiveWhysStart (sessions : FiveWhysSessions) (userId problem : String) :
    FiveWhysSessions :=
  setKey sessions userId ⟨problem, [], 1⟩

/-- Modelled from the spec: `five_whys_manager.is_complete(user_id)` is
true once the whys list of the user session has five entries. -/
def fiveWhysIsComplete (sessions : FiveWhysSessions) (userId : String) :
    Bool :=
  match lookupKey sessions userId with
  | some sess => sess.whys.length == 5
  | none => false

/-- Modelled from the spec: `five_whys_manager.answer(user_id, text)`
appends the answer verbatim and increments the step, returning the
session; it returns `none` when the user has no session, and a completed
session is immutable. -/
def fiveWhysAnswer (sessions : FiveWhysSessions) (userId text : String) :
    Option FiveWhysSession × FiveWhysSessions :=
  match lookupKey sessions userId with
  | none => (none, sessions)
  | some sess =>
    if sess.whys.length == 5 then (some sess, sessions)
    else
      let sess1 : FiveWhysSession :=
        { sess with whys := sess.whys ++ [text], step := sess.step + 1 }
      (some sess1, setKey sessions userId sess1)

/-! ## Incident store and the routes -/

/-- Value of one field of an incident record: the Five-Whys chain is a
list of strings, every other JSON value is opaque here. -/
inductive IncidentValue where
  | raw : String → IncidentValue
  | chain : List String → IncidentValue
deriving DecidableEq

/-- One record of `data/incidents.json`, a dict from field name to value. -/
abbrev IncidentRecord := List (String × IncidentValue)

/-- The incident store loaded by `_load_incidents_for_chatbot`: a mapping
from incident id to record. -/
abbrev IncidentStore := List (String × IncidentRecord)

/-- Form fields the three POST routes read from `request.form`. -/
structure FormRequest where
  problem : Option String
  user_id : Option String
  answer : Option String
  incident_id : Option String
  complete : Option String
  description : Option String
deriving DecidableEq

/-- JSON body and HTTP status returned by `POST /five_whys/start`. -/
structure FiveWhysStartResult where
  status : Nat
  ok : Bool
  error : Option String
  step : Option Nat
  prompt : Option String
  problem : Option String
deriving DecidableEq

/-- Route `five_whys_start`: reject a blank problem with a 400 body,
otherwise create the session and prompt for the first why. -/
def five_whys_start (req : FormRequest) (sessions : FiveWhysSessions) :
    FiveWhysStartResult × FiveWhysSessions :=
  let problem := pyStrip (formOr req.problem "")
  let userId := pyStrip (formOr req.user_id "default_user")
  if problem = "" then
    ({ status := 400, ok := false,
       error := some "Please provide a problem statement.",
       step := none, prompt := none, problem := none }, sessions)
  else
    ({ status := 200, ok := true, error := none, step := some 1,
       prompt := some "Why 1?", problem := some problem },
     fiveWhysStart sessions userId problem)

/-- Lines 752 to 758 of `five_whys_answer` in routes/chatbot.py: attach
the finished chain to the stored incident when an id was supplied.  The
second component tells whether `_save_incidents_for_chatbot` ran; a
missing id, an unknown id, or a falsy (empty) record writes nothing. -/
def attachChainToIncident (store : IncidentStore) (incidentId : String)
    (chain : List String) : IncidentStore × Bool :=
  if incidentId ≠ "" then
    match lookupKey store incidentId with
    | some rec =>
      if rec.isEmpty then (store, false)
      else
        (setKey store incidentId
          (setKey rec "root_cause_whys" (IncidentValue.chain chain)), true)
    | none => (store, false)
  else (store, false)

/-- JSON body and HTTP status returned by `POST /five_whys/answer`. -/
structure FiveWhysAnswerResult where
  status : Nat
  ok : Bool
  error : Option String
  complete : Option Bool
  whys : Option (List String)
  message : Option String
  prompt : Option String
  progress : Option Nat
deriving DecidableEq

/-- Route `five_whys_answer`: append an answer, report the next step or
the completed chain, and optionally attach the chain to an incident.
The last component tells whether the incident store was written. -/
def five_whys_answer (req : FormRequest) (sessions : FiveWhysSessions)
    (store : IncidentStore) :
    FiveWhysAnswerResult × FiveWhysSessions × IncidentStore × Bool :=
  let answerText := pyStrip (formOr req.answer "")
  let userId := pyStrip (formOr req.user_id "default_user")
  let incidentId := pyStrip (formOr req.incident_id "")
  let forceComplete := pyLower (formOr req.complete "") == "true"
  match fiveWhysAnswer sessions userId answerText with
  | (none, sessions1) =>
    ({ status := 400, ok := false,
       error := some "No active 5-Whys session. Start first.",
       complete := none, whys := none, message := none, prompt := none,
       progress := none }, sessions1, store, false)
  | (some sess, sessions1) =>
    let done := fiveWhysIsComplete sessions1 userId || forceComplete
    if done then
      let chain := sess.whys
      let att := attachChainToIncident store incidentId chain
      ({ status := 200, ok := true, error := none, complete := some true,
         whys := some chain, message := some "5 Whys completed.",
         prompt := none, progress := none }, sessions1, att.1, att.2)
    else
      ({ status := 200, ok := true, error := none, complete := some false,
         whys := none, message := none,
         prompt := some ("Why " ++ toString (sess.step + 1) ++ "?"),
         progress := some sess.whys.length }, sessions1, store, false)

/-- One ranked CAPA suggestion: action text, confidence, rationale. -/
structure CapaSuggestion where
  action_text : String
  confidence : ℚ
  rationale : String
deriving DecidableEq

/-- Modelled from the spec: result of
`CAPAManager().suggest_corrective_actions(description)` of the missing
`services.ehs_chatbot` module, kept abstract as an oracle value. -/
structure CapaResult where
  suggestions : List CapaSuggestion
deriving DecidableEq

/-- JSON body and HTTP status returned by `POST /capa/suggest`. -/
structure CapaSuggestResult where
  status : Nat
  ok : Bool
  error : Option String
  suggestions : Option (List CapaSuggestion)
deriving DecidableEq

/-- Route `capa_suggest`: reject a blank description with a 400 body,
otherwise run the CAPA engine; the second component tells whether the
engine ran. -/
def capa_suggest (engine : String → CapaResult) (req : FormRequest) :
    CapaSuggestResult × Bool :=
  let desc := pyStrip (formOr req.description "")
  if desc = "" then
    ({ status := 400, ok := false,
       error := some "Please provide a short description.",
       suggestions := none }, false)
  else
    ({ status := 200, ok := true, error := none,
       suggestions := some (engine desc).suggestions }, true)

/-! ## Claims C5, C8 and C4 -/

/-- C5.  Each input error of the Five-Whys and CAPA entry points is a
structured 400 JSON body with ok false and an error message, never an
exception: a blank problem at start creates no session, an answer with
no active session for the user leaves sessions and store untouched, and
a blank description at capa/suggest never invokes the scoring engine. -/
theorem c5_input_errors_structured (sessions : FiveWhysSessions)
    (store : IncidentStore) (reqS reqA reqD : FormRequest)
    (engine : String → CapaResult) :
    (pyStrip (formOr reqS.problem "") = "" →
      five_whys_start reqS sessions =
        ({ status := 400, ok := false,
           error := some "Please provide a problem statement.",
           step := none, prompt := none, problem := none }, sessions)) ∧
    (lookupKey sessions (pyStrip (formOr reqA.user_id "default_user")) = none →
      five_whys_answer reqA sessions store =
        ({ status := 400, ok := false,
           error := some "No active 5-Whys session. Start first.",
           complete := none, whys := none, message := none, prompt := none,
           progress := none }, sessions, store, false)) ∧
    (pyStrip (formOr reqD.description "") = "" →
      capa_suggest engine reqD =
        ({ status := 400, ok := false,
           error := some "Please provide a short description.",
           suggestions := none }, false)) := by
  refine ⟨?_, ?_, ?_⟩
  · intro h
    simp only [five_whys_start, h, if_pos]
  · intro h
    simp only [five_whys_answer, fiveWhysAnswer, h]
  · intro h
    simp only [capa_suggest, h, if_pos]

/-- Witness for C5: the empty form request trips all three input errors. -/
theorem c5_witness :
    (pyStrip (formOr (none : Option String) "") = "" →
      five_whys_start ⟨none, none, none, none, none, none⟩ [] =
        ({ status := 400, ok := false,
           error := some "Please provide a problem statement.",
           step := none, prompt := none, problem := none }, [])) ∧
    (lookupKey ([] : FiveWhysSessions)
        (pyStrip (formOr (none : Option String) "default_user")) = none →
      five_whys_answer ⟨none, none, none, none, none, none⟩ [] [] =
        ({ status := 400, ok := false,
           error := some "No active 5-Whys session. Start first.",
           complete := none, whys := none, message := none, prompt := none,
           progress := none }, [], [], false)) ∧
    (pyStrip (formOr (none : Option String) "") = "" →
      capa_suggest (fun _ => ⟨[]⟩) ⟨none, none, none, none, none, none⟩ =
        ({ status := 400, ok := false,
           error := some "Please provide a short description.",
           suggestions := none }, false)) :=
  c5_input_errors_structured [] [] ⟨none, none, none, none, none, none⟩
    ⟨none, none, none, none, none, none⟩ ⟨none, none, none, none, none, none⟩
    (fun _ => ⟨[]⟩)

/-- C8 counterexample.  The store truthiness test `if rec:` treats an
existing but empty record like a missing one: for the store mapping id I1
to the empty record, completing a chain against I1 writes nothing and
sets no root_cause_whys, although a record with that id exists. -/
theorem c8_counterexample :
    lookupKey ([("I1", ([] : IncidentRecord))] : IncidentStore) "I1" =
      some [] ∧
    attachChainToIncident [("I1", [])] "I1" ["w1", "w2", "w3", "w4", "w5"] =
      ([("I1", [])], false) := by
  refine ⟨rfl, by decide⟩

/-- C8 amended.  When the completed chain is attached under an incident id
naming a stored non-empty record, exactly that record gains (or has
overwritten) its root_cause_whys field with the chain: every other id
maps to its old record, the id set of the store is unchanged, and every
other field of the record is unchanged; when the id names no record — or
the stored record is empty, which the truthiness test treats as missing —
the store is returned unwritten. -/
theorem c8_amended_attach_frame (store : IncidentStore) (i : String)
    (chain : List String) (rec : IncidentRecord) :
    (lookupKey store i = some rec → rec ≠ [] → i ≠ "" →
      attachChainToIncident store i chain =
        (setKey store i (setKey rec "root_cause_whys"
          (IncidentValue.chain chain)), true) ∧
      lookupKey (attachChainToIncident store i chain).1 i =
        some (setKey rec "root_cause_whys" (IncidentValue.chain chain)) ∧
      (∀ j, j ≠ i →
        lookupKey (attachChainToIncident store i chain).1 j =
          lookupKey store j) ∧
      (attachChainToIncident store i chain).1.map Prod.fst =
        store.map Prod.fst ∧
      lookupKey (setKey rec "root_cause_whys" (IncidentValue.chain chain))
        "root_cause_whys" = some (IncidentValue.chain chain) ∧
      (∀ k, k ≠ "root_cause_whys" →
        lookupKey (setKey rec "root_cause_whys" (IncidentValue.chain chain)) k
          = lookupKey rec k)) ∧
    (lookupKey store i = none →
      attachChainToIncident store i chain = (store, false)) := by
  constructor
  · intro hrec hne hi
    have hempty : rec.isEmpty = false := by
      cases rec with
      | nil => exact absurd rfl hne
      | cons p t => rfl
    have heq : attachChainToIncident store i chain =
        (setKey store i (setKey rec "root_cause_whys"
          (IncidentValue.chain chain)), true) := by
      simp only [attachChainToIncident, if_pos hi, hrec, hempty]
      simp
    refine ⟨heq, ?_, ?_, ?_, ?_, ?_⟩
    · rw [heq]
      exact lookupKey_setKey_self store i _
    · intro j hj
      rw [heq]
      exact lookupKey_setKey_other store i j _ hj
    · rw [heq]
      exact setKey_keys_of_lookupKey store i _ rec hrec
    · exact lookupKey_setKey_self rec "root_cause_whys" _
    · intro k hk
      exact lookupKey_setKey_other rec "root_cause_whys" k _ hk
  · intro hnone
    by_cases hi : i = ""
    · simp [attachChainToIncident, hi]
    · simp [attachChainToIncident, hi, hnone]

/-- Concrete store with one incident record, for the C8 witness. -/
def witnessStore : IncidentStore :=
  [("I1", [("description", IncidentValue.raw "forklift near miss")])]

/-- Witness for the amended C8 at the concrete store `witnessStore`. -/
theorem c8_amended_witness :
    (lookupKey witnessStore "I1" =
        some [("description", IncidentValue.raw "forklift near miss")] →
      [("description", IncidentValue.raw "forklift near miss")] ≠
        ([] : IncidentRecord) → "I1" ≠ "" →
      attachChainToIncident witnessStore "I1" ["w1", "w2", "w3", "w4", "w5"] =
        (setKey witnessStore "I1"
          (setKey [("description", IncidentValue.raw "forklift near miss")]
            "root_cause_whys"
            (IncidentValue.chain ["w1", "w2", "w3", "w4", "w5"])), true) ∧
      lookupKey (attachChainToIncident witnessStore "I1"
          ["w1", "w2", "w3", "w4", "w5"]).1 "I1" =
        some (setKey [("description", IncidentValue.raw "forklift near miss")]
          "root_cause_whys"
          (IncidentValue.chain ["w1", "w2", "w3", "w4", "w5"])) ∧
      (∀ j, j ≠ "I1" →
        lookupKey (attachChainToIncident witnessStore "I1"
            ["w1", "w2", "w3", "w4", "w5"]).1 j = lookupKey witnessStore j) ∧
      (attachChainToIncident witnessStore "I1"
          ["w1", "w2", "w3", "w4", "w5"]).1.map Prod.fst =
        witnessStore.map Prod.fst ∧
      lookupKey (setKey [("description", IncidentValue.raw "forklift near miss")]
          "root_cause_whys"
          (IncidentValue.chain ["w1", "w2", "w3", "w4", "w5"]))
        "root_cause_whys" =
        some (IncidentValue.chain ["w1", "w2", "w3", "w4", "w5"]) ∧
      (∀ k, k ≠ "root_cause_whys" →
        lookupKey (setKey
            [("description", IncidentValue.raw "forklift near miss")]
            "root_cause_whys"
            (IncidentValue.chain ["w1", "w2", "w3", "w4", "w5"])) k =
          lookupKey [("description", IncidentValue.raw "forklift near miss")]
            k)) ∧
    (lookupKey witnessStore "I1" = none →
      attachChainToIncident witnessStore "I1" ["w1", "w2", "w3", "w4", "w5"] =
        (witnessStore, false)) :=
  c8_amended_attach_frame witnessStore "I1" ["w1", "w2", "w3", "w4", "w5"]
    [("description", IncidentValue.raw "forklift near miss")]

/-- C4.  Starting a Five-Whys session and answering five times (the fifth
through the route) completes it: is_complete holds, the session stores
exactly the five answers in submission order, and the route replies with
ok true, complete true and the whys chain. -/
theorem c4_five_answers_complete (sessions0 : FiveWhysSessions)
    (store : IncidentStore) (u p a1 a2 a3 a4 a5 : String)
    (hu : u ≠ "") (hus : pyStrip u = u) (ha5 : pyStrip a5 = a5) :
    fiveWhysIsComplete
      (five_whys_answer ⟨none, some u, some a5, none, none, none⟩
        ((fiveWhysAnswer ((fiveWhysAnswer ((fiveWhysAnswer ((fiveWhysAnswer
          (fiveWhysStart sessions0 u p) u a1).2) u a2).2) u a3).2) u a4).2)
        store).2.1 u = true ∧
    lookupKey
      (five_whys_answer ⟨none, some u, some a5, none, none, none⟩
        ((fiveWhysAnswer ((fiveWhysAnswer ((fiveWhysAnswer ((fiveWhysAnswer
          (fiveWhysStart sessions0 u p) u a1).2) u a2).2) u a3).2) u a4).2)
        store).2.1 u = some ⟨p, [a1, a2, a3, a4, a5], 6⟩ ∧
    (five_whys_answer ⟨none, some u, some a5, none, none, none⟩
        ((fiveWhysAnswer ((fiveWhysAnswer ((fiveWhysAnswer ((fiveWhysAnswer
          (fiveWhysStart sessions0 u p) u a1).2) u a2).2) u a3).2) u a4).2)
        store).1 =
      { status := 200, ok := true, error := none, complete := some true,
        whys := some [a1, a2, a3, a4, a5], message := some "5 Whys completed.",
        prompt := none, progress := none } := by
  have h0 : lookupKey (fiveWhysStart sessions0 u p) u =
      some ⟨p, ([] : List String), 1⟩ :=
    lookupKey_setKey_self sessions0 u _
  set s1 := fiveWhysStart sessions0 u p with hs1
  have e1 : fiveWhysAnswer s1 u a1 =
      (some ⟨p, [a1], 2⟩, setKey s1 u ⟨p, [a1], 2⟩) := by
    simp [fiveWhysAnswer, h0]
  have h1 : lookupKey (fiveWhysAnswer s1 u a1).2 u = some ⟨p, [a1], 2⟩ := by
    rw [e1]
    exact lookupKey_setKey_self s1 u _
  set s2 := (fiveWhysAnswer s1 u a1).2 with hs2
  have e2 : fiveWhysAnswer s2 u a2 =
      (some ⟨p, [a1, a2], 3⟩, setKey s2 u ⟨p, [a1, a2], 3⟩) := by
    simp [fiveWhysAnswer, h1]
  have h2 : lookupKey (fiveWhysAnswer s2 u a2).2 u =
      some ⟨p, [a1, a2], 3⟩ := by
    rw [e2]
    exact lookupKey_setKey_self s2 u _
  set s3 := (fiveWhysAnswer s2 u a2).2 with hs3
  have e3 : fiveWhysAnswer s3 u a3 =
      (some ⟨p, [a1, a2, a3], 4⟩, setKey s3 u ⟨p, [a1, a2, a3], 4⟩) := by
    simp [fiveWhysAnswer, h2]
  have h3 : lookupKey (fiveWhysAnswer s3 u a3).2 u =
      some ⟨p, [a1, a2, a3], 4⟩ := by
    rw [e3]
    exact lookupKey_setKey_self s3 u _
  set s4 := (fiveWhysAnswer s3 u a3).2 with hs4
  have e4 : fiveWhysAnswer s4 u a4 =
      (some ⟨p, [a1, a2, a3, a4], 5⟩, setKey s4 u ⟨p, [a1, a2, a3, a4], 5⟩) := by
    simp [fiveWhysAnswer, h3]
  have h4 : lookupKey (fiveWhysAnswer s4 u a4).2 u =
      some ⟨p, [a1, a2, a3, a4], 5⟩ := by
    rw [e4]
    exact lookupKey_setKey_self s4 u _
  set s5 := (fiveWhysAnswer s4 u a4).2 with hs5
  have huid : pyStrip (formOr (some u) "default_user") = u := by
    rw [formOr, if_neg hu, hus]
  have hans : pyStrip (formOr (some a5) "") = a5 := by
    by_cases h : a5 = ""
    · rw [formOr, if_pos h, h]
      rfl
    · rw [formOr, if_neg h, ha5]
  have e5 : fiveWhysAnswer s5 u a5 =
      (some ⟨p, [a1, a2, a3, a4, a5], 6⟩,
       setKey s5 u ⟨p, [a1, a2, a3, a4, a5], 6⟩) := by
    simp [fiveWhysAnswer, h4]
  have h5 : lookupKey (setKey s5 u ⟨p, [a1, a2, a3, a4, a5], 6⟩) u =
      some ⟨p, [a1, a2, a3, a4, a5], 6⟩ :=
    lookupKey_setKey_self s5 u _
  have hdone : fiveWhysIsComplete (setKey s5 u ⟨p, [a1, a2, a3, a4, a5], 6⟩) u
      = true := by
    simp [fiveWhysIsComplete, h5]
  have hroute : five_whys_answer ⟨none, some u, some a5, none, none, none⟩
      s5 store =
      ({ status := 200, ok := true, error := none, complete := some true,
         whys := some [a1, a2, a3, a4, a5],
         message := some "5 Whys completed.", prompt := none,
         progress := none },
       setKey s5 u ⟨p, [a1, a2, a3, a4, a5], 6⟩, store, false) := by
    simp only [five_whys_answer, huid, hans, e5, hdone, Bool.true_or]
    simp [attachChainToIncident, pyStrip, formOr, pyLower]
  exact ⟨by rw [hroute]; exact hdone, by rw [hroute]; exact h5, by rw [hroute]⟩

/-- Witness for C4 at a concrete user, problem and five answers. -/
theorem c4_witness :
    fiveWhysIsComplete
      (five_whys_answer ⟨none, some "u1", some "w5", none, none, none⟩
        ((fiveWhysAnswer ((fiveWhysAnswer ((fiveWhysAnswer ((fiveWhysAnswer
          (fiveWhysStart [] "u1" "machine stopped") "u1" "w1").2) "u1"
          "w2").2) "u1" "w3").2) "u1" "w4").2) []).2.1 "u1" = true ∧
    lookupKey
      (five_whys_answer ⟨none, some "u1", some "w5", none, none, none⟩
        ((fiveWhysAnswer ((fiveWhysAnswer ((fiveWhysAnswer ((fiveWhysAnswer
          (fiveWhysStart [] "u1" "machine stopped") "u1" "w1").2) "u1"
          "w2").2) "u1" "w3").2) "u1" "w4").2) []).2.1 "u1" =
      some ⟨"machine stopped", ["w1", "w2", "w3", "w4", "w5"], 6⟩ ∧
    (five_whys_answer ⟨none, some "u1", some "w5", none, none, none⟩
        ((fiveWhysAnswer ((fiveWhysAnswer ((fiveWhysAnswer ((fiveWhysAnswer
          (fiveWhysStart [] "u1" "machine stopped") "u1" "w1").2) "u1"
          "w2").2) "u1" "w3").2) "u1" "w4").2) []).1 =
      { status := 200, ok := true, error := none, complete := some true,
        whys := some ["w1", "w2", "w3", "w4", "w5"],
        message := some "5 Whys completed.", prompt := none,
        progress := none } :=
  c4_five_answers_complete [] [] "u1" "machine stopped" "w1" "w2" "w3" "w4"
    "w5" (by decide) (by decide) (by decide)

/-! ## handle_file_upload_secure (claim C10) -/

/-- Python `os.path.splitext`: split off the extension at the last dot,
ignoring leading dots of the name. -/
def splitext (s : String) : String × String :=
  let cs := s.toList
  let lead := (cs.takeWhile fun c => c = '.').length
  let rest := cs.drop lead
  if rest.contains '.' then
    let j := rest.length - 1 - (rest.reverse.indexOf '.')
    (⟨cs.take lead ++ rest.take j⟩, ⟨rest.drop j⟩)
  else (s, "")

/-- An uploaded file as the handler sees it: original filename, byte
count (obtained by seeking to the end), and the optional declared
content type. -/
structure UploadedRequestFile where
  filename : String
  size : Nat
  contentType : Option String
deriving DecidableEq

/-- Function `handle_file_upload_secure(file)`.  The werkzeug sanitizer
`secure_filename` and the clock are passed as parameters, and `saveOk`
tells whether `file.save` succeeds (a raise there is caught and yields
`None`).  The second component tells whether a save was attempted: a
rejected name or size returns before any filesystem write. -/
def handle_file_upload_secure (sanitize : String → String) (now : Nat)
    (saveOk : Bool) (f : UploadedRequestFile) : Option FileInfo × Bool :=
  let filename := sanitize f.filename
  if filename = "" then (none, false)
  else if 16 * 1024 * 1024 < f.size then (none, false)
  else
    let timestamp := toString now
    let se := splitext filename
    let uniqueFilename := se.1 ++ "_" ++ timestamp ++ se.2
    if saveOk then
      (some { filename := filename, unique_filename := uniqueFilename,
              path := "static/uploads/" ++ uniqueFilename,
              ftype := f.contentType.getD "application/octet-stream",
              size := f.size, upload_timestamp := timestamp }, true)
    else (none, true)

/-- C10.  The secure upload handler rejects an empty sanitized filename
or a file over 16777216 bytes without saving anything, and any
descriptor it returns carries the file byte count as size, the sanitized
original filename, and the declared content type defaulted to
application/octet-stream when the upload carries none. -/
theorem c10_upload_descriptor (sanitize : String → String) (now : Nat)
    (saveOk : Bool) (f : UploadedRequestFile) :
    ((sanitize f.filename = "" ∨ 16777216 < f.size) →
      handle_file_upload_secure sanitize now saveOk f = (none, false)) ∧
    (∀ d, (handle_file_upload_secure sanitize now saveOk f).1 = some d →
      d.size = f.size ∧ d.filename = sanitize f.filename ∧
      (f.contentType = none → d.ftype = "application/octet-stream")) := by
  constructor
  · rintro (h | h)
    · simp [handle_file_upload_secure, h]
    · by_cases hn : sanitize f.filename = ""
      · simp [handle_file_upload_secure, hn]
      · have : 16 * 1024 * 1024 < f.size := by norm_num; exact h
        simp [handle_file_upload_secure, hn, this]
  · intro d hd
    by_cases hn : sanitize f.filename = ""
    · simp [handle_file_upload_secure, hn] at hd
    · by_cases hs : 16 * 1024 * 1024 < f.size
      · simp [handle_file_upload_secure, hn, hs] at hd
      · cases hok : saveOk with
        | false => simp [handle_file_upload_secure, hn, hs, hok] at hd
        | true =>
          simp only [handle_file_upload_secure, if_neg hn, if_neg hs, hok,
            if_pos, if_true] at hd
          obtain rfl := Option.some.inj hd
          refine ⟨rfl, rfl, ?_⟩
          intro hct
          simp [hct]

/-- Witness for C10: a small text file is accepted and described, and an
oversize file is rejected. -/
theorem c10_witness :
    ((( fun s => s) "report.txt" = "" ∨ 16777216 < 12) →
      handle_file_upload_secure (fun s => s) 1700000000 true
        ⟨"report.txt", 12, none⟩ = (none, false)) ∧
    (∀ d, (handle_file_upload_secure (fun s => s) 1700000000 true
        ⟨"report.txt", 12, none⟩).1 = some d →
      d.size = 12 ∧ d.filename = (fun s => s) "report.txt" ∧
      ((⟨"report.txt", 12, none⟩ : UploadedRequestFile).contentType = none →
        d.ftype = "application/octet-stream")) :=
  c10_upload_descriptor (fun s => s) 1700000000 true ⟨"report.txt", 12, none⟩

/-! ## parse_request_data_comprehensive (claim C9) -/

/-- Value stored under a key of the request context dict: a string, a
number (the timestamp), or the uploaded-file descriptor; the payloads
are opaque to the parser. -/
inductive CtxVal where
  | cstr : String → CtxVal
  | cnum : Int → CtxVal
  | cfile : FileInfo → CtxVal
deriving DecidableEq

/-- A Python value met under a key of a JSON body: a string, a dict
(context candidates), or any other value carrying the text its `str()`
gives and its truthiness. -/
inductive BodyVal where
  | vstr : String → BodyVal
  | vdict : List (String × CtxVal) → BodyVal
  | vother : String → Bool → BodyVal
deriving DecidableEq

/-- Python `str(v)` of a body value; the repr text of a dict is irrelevant
to every claim and is modelled from its keys. -/
def pyStrOf : BodyVal → String
  | .vstr s => s
  | .vother s _ => s
  | .vdict kvs => "\x7b" ++ String.intercalate ", " (kvs.map Prod.fst) ++ "\x7d"

/-- Whether a body value is a Python dict (`isinstance(v, dict)`). -/
def BodyVal.isDict : BodyVal → Bool
  | .vdict _ => true
  | _ => false

/-- The top-level JSON body `request.get_json()` may return: a dict, or
any other value with its repr text and truthiness. -/
inductive JsonBody where
  | jdict : List (String × BodyVal) → JsonBody
  | jother : String → Bool → JsonBody
deriving DecidableEq

/-- Python `request.get_json() or {}`: a `None` or falsy body becomes the
empty dict (an empty dict is falsy and becomes the empty dict again). -/
def jsonOr : Option JsonBody → JsonBody
  | none => .jdict []
  | some (.jdict kvs) => .jdict kvs
  | some (.jother r b) => if b then .jother r b else .jdict []

/-- Python `data.get(k, dflt)`: raises AttributeError when the body is
not a dict. -/
def jsonGet (data : JsonBody) (k : String) (dflt : BodyVal) :
    Except Unit BodyVal :=
  match data with
  | .jdict kvs => .ok ((lookupKey kvs k).getD dflt)
  | .jother _ _ => .error ()

/-- Python `context[k] = v`: raises TypeError when the context value is
not a dict. -/
def ctxSet (c : BodyVal) (k : String) (v : CtxVal) : Except Unit BodyVal :=
  match c with
  | .vdict kvs => .ok (.vdict (setKey kvs k v))
  | _ => .error ()

/-- Python `context.update(kvs)`: raises AttributeError when the context
value is not a dict. -/
def ctxUpdate (c : BodyVal) (upd : List (String × CtxVal)) :
    Except Unit BodyVal :=
  match c with
  | .vdict kvs =>
    .ok (.vdict (upd.foldl (fun acc pv => setKey acc pv.1 pv.2) kvs))
  | _ => .error ()

/-- Lines 176 to 177 of routes/chatbot.py: a message over 5000 characters
is cut to its first 5000 characters plus an ellipsis. -/
def truncateMessage (m : String) : String :=
  if 5000 < m.length then pyTake m 5000 ++ "..." else m

/-- An inbound chat request as `parse_request_data_comprehensive` reads
it: the JSON body (whose retrieval may raise), the form fields, the
outcome of `json.loads` on the form context string, the file flags
(`file` present, and non-empty, allowed filename), the outcome of
`handle_file_upload_secure`, and the request metadata. -/
structure ChatRequest where
  isJson : Bool
  getJson : Except Unit (Option JsonBody)
  formMessage : Option String
  formUserId : Option String
  formContext : Option String
  loadsContext : Except Unit BodyVal
  hasFile : Bool
  fileOk : Bool
  uploadResult : Option FileInfo
  nowTs : Int
  method : String
  userAgent : String

/-- The metadata entries `context.update({...})` adds (lines 180 to 184):
timestamp, request method, and the user agent cut to 100 characters. -/
def contextMetadata (req : ChatRequest) : List (String × CtxVal) :=
  [("timestamp", .cnum req.nowTs), ("request_method", .cstr req.method),
   ("user_agent", .cstr (pyTake req.userAgent 100))]

/-- The JSON branch of the try block (lines 141 to 149). -/
def parseJsonBranch (req : ChatRequest) :
    Except Unit (String × String × BodyVal × Option FileInfo) := do
  let body ← req.getJson
  let data := jsonOr body
  let msgVal ← jsonGet data "message" (.vstr "")
  let uidVal ← jsonGet data "user_id" (.vstr "default_user")
  let ctxVal ← jsonGet data "context" (.vdict [])
  let userMessage := pyStrip (pyStrOf msgVal)
  let userId := pyStrOf uidVal
  let context : BodyVal :=
    match ctxVal with
    | .vdict kvs => .vdict kvs
    | _ => .vdict []
  pure (userMessage, userId, context, none)

/-- The form branch of the try block (lines 151 to 167): form fields are
strings, a bad context string degrades to the empty dict locally, and
the upload is handled only when a non-empty allowed filename came. -/
def parseFormBranch (req : ChatRequest) :
    Except Unit (String × String × BodyVal × Option FileInfo) :=
  let userMessage := pyStrip (req.formMessage.getD "")
  let userId := req.formUserId.getD "default_user"
  let contextStr := req.formContext.getD "\x7b\x7d"
  let context : BodyVal :=
    if contextStr = "" then .vdict []
    else
      match req.loadsContext with
      | .ok v => v
      | .error _ => .vdict []
  let uploaded := if req.hasFile && req.fileOk then req.uploadResult else none
  .ok (userMessage, userId, context, uploaded)

/-- The common tail of the try block (lines 169 to 186): file context and
default file message, message truncation, metadata update; a raise in
any step propagates to the handler. -/
def parseTail (req : ChatRequest)
    (t : String × String × BodyVal × Option FileInfo) :
    Except Unit (String × String × BodyVal × Option FileInfo) :=
  match t with
  | (userMessage0, userId, context0, uploaded) =>
    match uploaded with
    | some f =>
      match ctxSet context0 "uploaded_file" (.cfile f) with
      | .error u => .error u
      | .ok c1 =>
        let userMessage1 :=
          if userMessage0 = "" then "I've uploaded a file: " ++ f.filename
          else userMessage0
        match ctxUpdate c1 (contextMetadata req) with
        | .error u => .error u
        | .ok c2 => .ok (truncateMessage userMessage1, userId, c2, uploaded)
    | none =>
      match ctxUpdate context0 (contextMetadata req) with
      | .error u => .error u
      | .ok c2 => .ok (truncateMessage userMessage0, userId, c2, uploaded)

/-- The whole try block of `parse_request_data_comprehensive`. -/
def parseBody (req : ChatRequest) :
    Except Unit (String × String × BodyVal × Option FileInfo) :=
  (if req.isJson then parseJsonBranch req else parseFormBranch req).bind
    (parseTail req)

/-- Function `parse_request_data_comprehensive()`: the try block with its
handler, which returns the safe default tuple on any internal failure. -/
def parse_request_data_comprehensive (req : ChatRequest) :
    String × String × BodyVal × Option FileInfo :=
  match parseBody req with
  | .ok t => t
  | .error _ => ("", "default_user", .vdict [], none)

theorem truncateMessage_length (m : String) :
    (truncateMessage m).length ≤ 5003 := by
  unfold truncateMessage
  by_cases h : 5000 < m.length
  · rw [if_pos h]
    have h1 : (pyTake m 5000).length ≤ 5000 := by
      have h0 : (pyTake m 5000).length = (m.toList.take 5000).length := rfl
      rw [h0, List.length_take]
      exact min_le_left _ _
    have h2 : (pyTake m 5000 ++ "...").length =
        (pyTake m 5000).length + 3 := by
      rw [String.length_append]
      rfl
    omega
  · rw [if_neg h]
    omega

theorem exceptBind_ok {α β : Type} {e : Except Unit α} {f : α → Except Unit β}
    {b : β} (h : e.bind f = .ok b) : ∃ a, e = .ok a ∧ f a = .ok b := by
  cases e with
  | ok a => exact ⟨a, rfl, h⟩
  | error u => simp [Except.bind] at h

theorem ctxUpdate_isDict (c : BodyVal) (upd : List (String × CtxVal))
    (c2 : BodyVal) (h : ctxUpdate c upd = .ok c2) : c2.isDict = true := by
  cases c with
  | vdict kvs =>
    simp only [ctxUpdate, Except.ok.injEq] at h
    subst h
    rfl
  | vstr s => simp [ctxUpdate] at h
  | vother s b => simp [ctxUpdate] at h

theorem parseTail_shape (req : ChatRequest)
    (t r : String × String × BodyVal × Option FileInfo)
    (h : parseTail req t = .ok r) :
    (∃ m, r.1 = truncateMessage m) ∧ r.2.2.1.isDict = true := by
  obtain ⟨m0, uid, c0, up⟩ := t
  cases up with
  | none =>
    simp only [parseTail] at h
    cases hc : ctxUpdate c0 (contextMetadata req) with
    | ok c2 =>
      rw [hc] at h
      simp only [Except.ok.injEq] at h
      subst h
      exact ⟨⟨m0, rfl⟩, ctxUpdate_isDict c0 (contextMetadata req) c2 hc⟩
    | error u =>
      rw [hc] at h
      simp at h
  | some f =>
    simp only [parseTail] at h
    cases hs : ctxSet c0 "uploaded_file" (.cfile f) with
    | error u =>
      rw [hs] at h
      simp at h
    | ok c1 =>
      rw [hs] at h
      dsimp only at h
      cases hc : ctxUpdate c1 (contextMetadata req) with
      | ok c2 =>
        rw [hc] at h
        simp only [Except.ok.injEq] at h
        subst h
        exact ⟨⟨_, rfl⟩, ctxUpdate_isDict c1 (contextMetadata req) c2 hc⟩
      | error u =>
        rw [hc] at h
        simp at h

/-- C9.  The request parser is total: whatever the request, the returned
user message has at most 5003 characters and is the truncation of the
assembled message (over 5000 characters it becomes the first 5000 plus
an ellipsis), the returned context is a dict, and any internal failure
yields the safe default tuple instead of an exception. -/
theorem c9_parse_request_total (req : ChatRequest) :
    (parse_request_data_comprehensive req).1.length ≤ 5003 ∧
    (parse_request_data_comprehensive req).2.2.1.isDict = true ∧
    (∀ t, parseBody req = .ok t →
      parse_request_data_comprehensive req = t ∧
      ∃ m, t.1 = truncateMessage m) ∧
    (∀ e, parseBody req = .error e →
      parse_request_data_comprehensive req =
        ("", "default_user", .vdict [], none)) ∧
    (∀ m, 5000 < m.length → truncateMessage m = pyTake m 5000 ++ "...") := by
  have hmain : (parse_request_data_comprehensive req).1.length ≤ 5003 ∧
      (parse_request_data_comprehensive req).2.2.1.isDict = true := by
    cases hb : parseBody req with
    | error e =>
      unfold parse_request_data_comprehensive
      rw [hb]
      exact ⟨by simp, rfl⟩
    | ok t =>
      obtain ⟨a, _, htail⟩ := exceptBind_ok hb
      obtain ⟨⟨m, hm⟩, hdict⟩ := parseTail_shape req a t htail
      unfold parse_request_data_comprehensive
      rw [hb]
      exact ⟨hm ▸ truncateMessage_length m, hdict⟩
  refine ⟨hmain.1, hmain.2, ?_, ?_, ?_⟩
  · intro t ht
    obtain ⟨a, _, htail⟩ := exceptBind_ok ht
    obtain ⟨⟨m, hm⟩, _⟩ := parseTail_shape req a t htail
    refine ⟨?_, ⟨m, hm⟩⟩
    unfold parse_request_data_comprehensive
    rw [ht]
  · intro e he
    unfold parse_request_data_comprehensive
    rw [he]
  · intro m hm
    unfold truncateMessage
    rw [if_pos hm]

/-- A concrete JSON chat request for the C9 witness. -/
def sampleChatRequest : ChatRequest :=
  { isJson := true,
    getJson := .ok (some (.jdict [("message", .vstr "hello")])),
    formMessage := none, formUserId := none, formContext := none,
    loadsContext := .ok (.vdict []), hasFile := false, fileOk := false,
    uploadResult := none, nowTs := 0, method := "POST",
    userAgent := "agent" }

/-- Witness for C9 at the concrete request `sampleChatRequest`. -/
theorem c9_witness :
    (parse_request_data_comprehensive sampleChatRequest).1.length ≤ 5003 ∧
    (parse_request_data_comprehensive sampleChatRequest).2.2.1.isDict =
      true ∧
    (∀ t, parseBody sampleChatRequest = .ok t →
      parse_request_data_comprehensive sampleChatRequest = t ∧
      ∃ m, t.1 = truncateMessage m) ∧
    (∀ e, parseBody sampleChatRequest = .error e →
      parse_request_data_comprehensive sampleChatRequest =
        ("", "default_user", .vdict [], none)) ∧
    (∀ m, 5000 < m.length → truncateMessage m = pyTake m 5000 ++ "...") :=
  c9_parse_request_total sampleChatRequest

end EHS
